import Mathlib

/-!
Verification development for the motion-detection recording controller in
`motion_detector.py` (class `MotionDetector`).

Shallow embedding notes:
* Timestamps are rationals (seconds).  Each loop iteration receives a single
  time `now`, standing for the `datetime.datetime.now()` calls made inside
  that iteration.
* The mutable instance attributes `__encoding`, `__start_time_of_last_recording`
  and `__time_of_last_motion_detection` form the controller state.
* Calls to the encoder output (`start`/`stop`), to `__upload_file`
  (the segment publisher) and to `logging.error` are recorded as an event list.
* The outcome of `__upload_file` is an input of each iteration: it can succeed,
  fail with an exception handled inside `__send_email`
  (`smtplib.SMTPException` / `socket.timeout`), or raise an exception that
  propagates out of `__write_recording_to_file` into the loop's catch-all
  handler.
-/

namespace MotionDetection

/-- Configuration fields of `MotionDetector` used by the detection loop:
`--min-pixel-diff` (the motion threshold), `--max-recording-length-seconds`
(0 means unlimited) and `--recording-dir`. -/
structure Config where
  minPixelDiff : ℚ
  maxRecordingLengthSeconds : ℤ
  recordingDir : String
deriving DecidableEq

/-- Constant `MotionDetector.__MAX_TIME_SINCE_LAST_MOTION_DETECTION_SECONDS = 5.0`. -/
def maxTimeSinceLastMotionDetectionSeconds : ℚ := 5

/-- The mutable controller state: `self.__encoding`,
`self.__start_time_of_last_recording`, `self.__time_of_last_motion_detection`.
The two timestamps are `Option` because the source initialises them to `None`. -/
structure DetectorState where
  encoding : Bool
  startTimeOfLastRecording : Option ℚ
  timeOfLastMotionDetection : Option ℚ
deriving DecidableEq

/-- State after `__init__`: `__encoding = False`, both timestamps `None`. -/
def initialState : DetectorState :=
  { encoding := false, startTimeOfLastRecording := none, timeOfLastMotionDetection := none }

/-- Model of `datetime.isoformat()` as an injective rendering of a rational
timestamp. -/
def isoformat (t : ℚ) : String :=
  toString t.num ++ "T" ++ toString t.den

/-- Embeds `MotionDetector.__get_recording_file_path` applied to a known start time:
`f"{self.__recording_dir}{self.__start_time_of_last_recording.isoformat()}.h264"`. -/
def recordingFilePath (cfg : Config) (startTime : ℚ) : String :=
  cfg.recordingDir ++ isoformat startTime ++ ".h264"

/-- Embeds `MotionDetector.__get_recording_file_path`; `none` models the
`AttributeError` raised when `__start_time_of_last_recording` is `None`. -/
def getRecordingFilePath (cfg : Config) (s : DetectorState) : Option String :=
  s.startTimeOfLastRecording.map (recordingFilePath cfg)

/-- Observable actions of one loop iteration: the encoder-output calls made by
`__start_recording` / `__write_recording_to_file`, the hand-off of a finished
segment to `__upload_file`, and `logging.error` calls. -/
inductive LoopEvent where
  | start (path : String)
  | stop (path : String)
  | publish (path : String)
  | logError (msg : String)
deriving DecidableEq

/-- Whether an event is an encoder-output `start` call. -/
def isStartEvent : LoopEvent → Bool
  | LoopEvent.start _ => true
  | _ => false

/-- Whether an event is an encoder-output `stop` call. -/
def isStopEvent : LoopEvent → Bool
  | LoopEvent.stop _ => true
  | _ => false

/-- Whether an event is a hand-off of a finished segment to `__upload_file`. -/
def isPublishEvent : LoopEvent → Bool
  | LoopEvent.publish _ => true
  | _ => false

/-- Outcome of the `__upload_file` call made by `__write_recording_to_file`:
it returns normally, or an exception is caught inside `__send_email`
(`smtplib.SMTPException` / `socket.timeout`, logged there), or an exception
escapes `__upload_file` (e.g. a connection-setup or file error). -/
inductive PublishOutcome where
  | ok
  | handledFailure (msg : String)
  | unhandledFailure (msg : String)
deriving DecidableEq

/-- Embeds `MotionDetector.__is_max_recording_length_exceeded`:
`max > 0 and start is not None and (now - start).total_seconds() >= max`. -/
def isMaxRecordingLengthExceeded (cfg : Config) (s : DetectorState) (now : ℚ) : Bool :=
  decide (0 < cfg.maxRecordingLengthSeconds) &&
    (match s.startTimeOfLastRecording with
     | none => false
     | some t => decide ((cfg.maxRecordingLengthSeconds : ℚ) ≤ now - t))

/-- Embeds `MotionDetector.__is_max_time_since_last_motion_detection_exceeded`:
`encoding and last is not None and (now - last).total_seconds() > 5.0`. -/
def isMaxTimeSinceLastMotionDetectionExceeded (s : DetectorState) (now : ℚ) : Bool :=
  s.encoding &&
    (match s.timeOfLastMotionDetection with
     | none => false
     | some t => decide (maxTimeSinceLastMotionDetectionSeconds < now - t))

/-- Embeds `MotionDetector.__start_recording`: sets the circular output's file path to
`__get_recording_file_path()`, starts the output, sets `__encoding = True`. -/
def startRecording (cfg : Config) (s : DetectorState) : DetectorState × List LoopEvent :=
  match s.startTimeOfLastRecording with
  | none => (s, [LoopEvent.logError "NoneType has no attribute isoformat"])
  | some t => ({ s with encoding := true }, [LoopEvent.start (recordingFilePath cfg t)])

/-- Embeds `MotionDetector.__write_recording_to_file`: recomputes the file path from
`__start_time_of_last_recording`, stops the encoder output, hands the path to
`__upload_file`, then clears `__encoding` and `__start_time_of_last_recording`.
When `__upload_file` raises an unhandled exception, the last two assignments
are skipped and the exception reaches the loop's catch-all handler, which logs
it; `__time_of_last_motion_detection` is never cleared. -/
def writeRecordingToFile (cfg : Config) (po : PublishOutcome) (s : DetectorState) :
    DetectorState × List LoopEvent :=
  match s.startTimeOfLastRecording with
  | none => (s, [LoopEvent.logError "NoneType has no attribute isoformat"])
  | some t =>
      let filePath := recordingFilePath cfg t
      match po with
      | PublishOutcome.ok =>
          ({ s with encoding := false, startTimeOfLastRecording := none },
           [LoopEvent.stop filePath, LoopEvent.publish filePath])
      | PublishOutcome.handledFailure m =>
          ({ s with encoding := false, startTimeOfLastRecording := none },
           [LoopEvent.stop filePath, LoopEvent.logError m, LoopEvent.publish filePath])
      | PublishOutcome.unhandledFailure m =>
          (s, [LoopEvent.stop filePath, LoopEvent.logError m])

/-- One iteration of `__loop` on a successfully scored frame pair, lines
136-149 of the source.  The branch structure is kept exactly:

* line 136: `if hist_diff > min_pixel_diff and not max_exceeded and not encoding`,
  with the redundant inner `if not self.__encoding` of line 137;
* line 142: `elif self.__is_max_recording_length_exceeded()`;
* lines 146-149: `else: if max_time_since_last_motion_exceeded: write`. -/
def loopIterSample (cfg : Config) (s : DetectorState) (histDiff now : ℚ)
    (po : PublishOutcome) : DetectorState × List LoopEvent :=
  if decide (cfg.minPixelDiff < histDiff) && !(isMaxRecordingLengthExceeded cfg s now)
      && !s.encoding then
    let started :=
      if !s.encoding then
        startRecording cfg { s with startTimeOfLastRecording := some now }
      else (s, [])
    ({ started.1 with timeOfLastMotionDetection := some now }, started.2)
  else if isMaxRecordingLengthExceeded cfg s now then
    writeRecordingToFile cfg po s
  else if isMaxTimeSinceLastMotionDetectionExceeded s now then
    writeRecordingToFile cfg po s
  else (s, [])

/-- Input of one iteration of `__loop`: either `capture_buffer`/`reshape`
raises (nothing after it runs), or `__calculate_histogram_difference` raises
(e.g. a shape mismatch), or a `(score, now)` pair reaches the decision logic
together with the outcome the publisher would produce if called. -/
inductive StepInput where
  | acquisitionFailure (msg : String)
  | scoringFailure (msg : String)
  | sample (histDiff now : ℚ) (po : PublishOutcome)
deriving DecidableEq

/-- One iteration of the `while True` body including the
`except Exception` handler: any exception raised inside the body is logged at
error level and the loop continues with its state as it was at the raise. -/
def loopIter (cfg : Config) (s : DetectorState) : StepInput → DetectorState × List LoopEvent
  | StepInput.acquisitionFailure m => (s, [LoopEvent.logError m])
  | StepInput.scoringFailure m => (s, [LoopEvent.logError m])
  | StepInput.sample histDiff now po => loopIterSample cfg s histDiff now po

/-- Runs the loop over a list of iteration inputs, concatenating the events. -/
def runLoop (cfg : Config) (s : DetectorState) : List StepInput → DetectorState × List LoopEvent
  | [] => (s, [])
  | inp :: rest =>
      let step := loopIter cfg s inp
      let tail := runLoop cfg step.1 rest
      (tail.1, step.2 ++ tail.2)

/-- States reachable from the post-`__init__` state by loop iterations. -/
inductive Reachable (cfg : Config) : DetectorState → Prop
  | init : Reachable cfg initialState
  | step (s : DetectorState) (inp : StepInput) :
      Reachable cfg s → Reachable cfg (loopIter cfg s inp).1

/-- Command-line defaults: `--min-pixel-diff 7.2`,
`--max-recording-length-seconds 0`, `--recording-dir ./recordings/`. -/
def defaultConfig : Config :=
  { minPixelDiff := 36 / 5, maxRecordingLengthSeconds := 0, recordingDir := "./recordings/" }

/-- The state invariant actually maintained by the loop: while encoding, both
timestamps hold the same start instant; while not encoding, the start time is
cleared.  (`timeOfLastMotionDetection` is not cleared on stop.) -/
def StateInv (s : DetectorState) : Prop :=
  (s.encoding = true →
    ∃ t, s.startTimeOfLastRecording = some t ∧ s.timeOfLastMotionDetection = some t) ∧
  (s.encoding = false → s.startTimeOfLastRecording = none)

/-- Configuration with `--max-recording-length-seconds 10` (Scenario 4). -/
def capConfig : Config :=
  { minPixelDiff := 36 / 5, maxRecordingLengthSeconds := 10, recordingDir := "./recordings/" }

/-- Invariant of one motion episode started at time `t`: the controller is
either Recording the segment whose `startedAt` is `t`, or Idle with the start
time cleared. -/
def EpisodeInv (t : ℚ) (s : DetectorState) : Prop :=
  s.encoding = true ∧ s.startTimeOfLastRecording = some t ∨
  s.encoding = false ∧ s.startTimeOfLastRecording = none

/-- Embeds `PIL.Image.histogram()` for a single-channel (mode `L`) 8-bit image: one
list of 256 bin counts, bin `i` counting the pixels with intensity `i`.  A
frame is embedded as its flattened list of pixel intensities; the histogram
does not depend on the 2-D arrangement. -/
def imageHistogram (frame : List ℕ) : List ℕ :=
  (List.range 256).map fun i => frame.countP fun v => v == i

/-- Embeds `MotionDetector.__calculate_histogram_difference`, lines 155-164:
`sum([abs(c - p) for c, p in zip(current_hist, previous_hist)]) / len(current_hist)`. -/
def calculateHistogramDifference (currentFrame previousFrame : List ℕ) : ℚ :=
  let currentHist := imageHistogram currentFrame
  let previousHist := imageHistogram previousFrame
  ((((currentHist.zip previousHist).map fun cp => |(cp.1 : ℤ) - (cp.2 : ℤ)|).sum : ℤ) : ℚ)
    / (currentHist.length : ℚ)

/-- One bin of the 256-bin intensity histogram, as the spec words it. -/
def histogramBin (frame : List ℕ) (i : ℕ) : ℕ :=
  frame.countP fun v => v == i

/-- The spec's formula for the difference score:
`sum over i of abs(current_hist i - previous_hist i), divided by 256`. -/
def specHistogramScore (c p : List ℕ) : ℚ :=
  ((∑ i in Finset.range 256, |(histogramBin c i : ℤ) - (histogramBin p i : ℤ)| : ℤ) : ℚ) / 256

theorem stateInv_initial : StateInv initialState := by
  constructor <;> simp [initialState]

theorem stateInv_step (cfg : Config) (s : DetectorState) (inp : StepInput)
    (h : StateInv s) : StateInv (loopIter cfg s inp).1 := by
  cases inp with
  | acquisitionFailure m => exact h
  | scoringFailure m => exact h
  | sample histDiff now po =>
      show StateInv (loopIterSample cfg s histDiff now po).1
      unfold loopIterSample
      split
      · next hcond =>
          have henc : s.encoding = false := by
            simp only [Bool.and_eq_true, Bool.not_eq_true'] at hcond
            exact hcond.2
          simp only [henc, Bool.not_false, if_true, startRecording]
          constructor <;> simp
      · have hwrite : StateInv (writeRecordingToFile cfg po s).1 := by
          rcases hs : s.startTimeOfLastRecording with - | t
          · simpa only [writeRecordingToFile, hs] using h
          · cases po with
            | ok => simp only [writeRecordingToFile, hs]; constructor <;> simp
            | handledFailure m => simp only [writeRecordingToFile, hs]; constructor <;> simp
            | unhandledFailure m => simpa only [writeRecordingToFile, hs] using h
        split
        · exact hwrite
        · split
          · exact hwrite
          · exact h

theorem reachable_stateInv (cfg : Config) (s : DetectorState) (h : Reachable cfg s) :
    StateInv s := by
  induction h with
  | init => exact stateInv_initial
  | step s inp hs ih => exact stateInv_step cfg s inp ih

theorem maxRecordingLengthExceeded_of (cfg : Config) (s : DetectorState) (now t0 : ℚ)
    (hstart : s.startTimeOfLastRecording = some t0)
    (hmax : 0 < cfg.maxRecordingLengthSeconds)
    (hdur : (cfg.maxRecordingLengthSeconds : ℚ) ≤ now - t0) :
    isMaxRecordingLengthExceeded cfg s now = true := by
  simp [isMaxRecordingLengthExceeded, hstart, hmax, hdur]

theorem maxTimeSinceLastMotionExceeded_of (s : DetectorState) (now tm : ℚ)
    (henc : s.encoding = true)
    (hlast : s.timeOfLastMotionDetection = some tm)
    (hsil : maxTimeSinceLastMotionDetectionSeconds < now - tm) :
    isMaxTimeSinceLastMotionDetectionExceeded s now = true := by
  simp [isMaxTimeSinceLastMotionDetectionExceeded, henc, hlast, hsil]

theorem loopIterSample_cap_stop (cfg : Config) (s : DetectorState) (histDiff now : ℚ)
    (po : PublishOutcome) (henc : s.encoding = true)
    (hcap : isMaxRecordingLengthExceeded cfg s now = true) :
    loopIterSample cfg s histDiff now po = writeRecordingToFile cfg po s := by
  simp [loopIterSample, henc, hcap]

theorem loopIterSample_silence_stop (cfg : Config) (s : DetectorState) (histDiff now : ℚ)
    (po : PublishOutcome) (henc : s.encoding = true)
    (hcap : isMaxRecordingLengthExceeded cfg s now = false)
    (hsil : isMaxTimeSinceLastMotionDetectionExceeded s now = true) :
    loopIterSample cfg s histDiff now po = writeRecordingToFile cfg po s := by
  simp [loopIterSample, henc, hcap, hsil]

theorem writeRecordingToFile_ok (cfg : Config) (s : DetectorState) (t0 : ℚ)
    (hstart : s.startTimeOfLastRecording = some t0) :
    writeRecordingToFile cfg PublishOutcome.ok s =
      ({ s with encoding := false, startTimeOfLastRecording := none },
       [LoopEvent.stop (recordingFilePath cfg t0), LoopEvent.publish (recordingFilePath cfg t0)]) := by
  simp [writeRecordingToFile, hstart]

theorem writeRecordingToFile_unhandled (cfg : Config) (s : DetectorState) (t0 : ℚ) (m : String)
    (hstart : s.startTimeOfLastRecording = some t0) :
    writeRecordingToFile cfg (PublishOutcome.unhandledFailure m) s =
      (s, [LoopEvent.stop (recordingFilePath cfg t0), LoopEvent.logError m]) := by
  simp [writeRecordingToFile, hstart]

/-- C1: the claim fails on the code and the failure contradicts the code's own
structure.  Line 136 guards the motion branch with `not self.__encoding`, so
while a recording is active an above-threshold score never reaches line 141:
starting at `t0 = 0` (score 9 > 7.2), feeding score 9 at `t0+1` and `t0+3`
leaves `__time_of_last_motion_detection` at `some 0` — the claim (and the
redundant inner `if not self.__encoding` at line 137, which is dead code under
line 136) expect it to advance to `some 3`.  No new start call happens (that
part of the claim holds), and the state stays Recording. -/
theorem C1_recording_refresh_not_applied :
    runLoop defaultConfig initialState
      [StepInput.sample 9 0 PublishOutcome.ok, StepInput.sample 9 1 PublishOutcome.ok,
       StepInput.sample 9 3 PublishOutcome.ok] =
    ({ encoding := true, startTimeOfLastRecording := some 0, timeOfLastMotionDetection := some 0 },
     [LoopEvent.start (recordingFilePath defaultConfig 0)]) ∧
    (runLoop defaultConfig initialState
      [StepInput.sample 9 0 PublishOutcome.ok, StepInput.sample 9 1 PublishOutcome.ok,
       StepInput.sample 9 3 PublishOutcome.ok]).1.timeOfLastMotionDetection ≠ some 3 := by
  constructor
  · norm_num [runLoop, loopIter, loopIterSample, startRecording, writeRecordingToFile,
      isMaxRecordingLengthExceeded, isMaxTimeSinceLastMotionDetectionExceeded,
      maxTimeSinceLastMotionDetectionSeconds, defaultConfig, initialState]
  · norm_num [runLoop, loopIter, loopIterSample, startRecording, writeRecordingToFile,
      isMaxRecordingLengthExceeded, isMaxTimeSinceLastMotionDetectionExceeded,
      maxTimeSinceLastMotionDetectionSeconds, defaultConfig, initialState]

/-- C2, counterexample to the second half of the claim: a reachable Idle state
in which `lastMotionAt` is still set.  Start a recording at `t = 0`
(score 9 > 7.2), stop it via the silence timeout at `t = 6`:
`__write_recording_to_file` clears `__encoding` and
`__start_time_of_last_recording` but never clears
`__time_of_last_motion_detection`, which remains `some 0`. -/
theorem C2_idle_lastMotion_not_cleared :
    ((runLoop defaultConfig initialState
        [StepInput.sample 9 0 PublishOutcome.ok,
         StepInput.sample 0 6 PublishOutcome.ok]).1.encoding = false) ∧
    ((runLoop defaultConfig initialState
        [StepInput.sample 9 0 PublishOutcome.ok,
         StepInput.sample 0 6 PublishOutcome.ok]).1.timeOfLastMotionDetection = some 0) := by
  constructor
  · norm_num [runLoop, loopIter, loopIterSample, startRecording, writeRecordingToFile,
      isMaxRecordingLengthExceeded, isMaxTimeSinceLastMotionDetectionExceeded,
      maxTimeSinceLastMotionDetectionSeconds, defaultConfig, initialState]
  · norm_num [runLoop, loopIter, loopIterSample, startRecording, writeRecordingToFile,
      isMaxRecordingLengthExceeded, isMaxTimeSinceLastMotionDetectionExceeded,
      maxTimeSinceLastMotionDetectionSeconds, defaultConfig, initialState]

/-- C2, amended: in every reachable state, while Recording both `startedAt` and
`lastMotionAt` are defined with `startedAt ≤ lastMotionAt`, and while Idle
`startedAt` is cleared; `lastMotionAt`, however, is not cleared on stop and may
retain the last episode's value while Idle. -/
theorem C2_recording_invariant_amended (cfg : Config) (s : DetectorState)
    (h : Reachable cfg s) :
    (s.encoding = true → ∃ t u, s.startTimeOfLastRecording = some t ∧
      s.timeOfLastMotionDetection = some u ∧ t ≤ u) ∧
    (s.encoding = false → s.startTimeOfLastRecording = none) := by
  obtain ⟨h1, h2⟩ := reachable_stateInv cfg s h
  refine ⟨fun he => ?_, h2⟩
  obtain ⟨t, ht, hu⟩ := h1 he
  exact ⟨t, t, ht, hu, le_refl t⟩

/-- Witness for C2's amended theorem at the reachable state obtained by one
motion-detected iteration from the initial state. -/
theorem C2_recording_invariant_amended_witness :
    ((loopIter defaultConfig initialState (StepInput.sample 9 0 PublishOutcome.ok)).1.encoding = true →
      ∃ t u, (loopIter defaultConfig initialState
          (StepInput.sample 9 0 PublishOutcome.ok)).1.startTimeOfLastRecording = some t ∧
        (loopIter defaultConfig initialState
          (StepInput.sample 9 0 PublishOutcome.ok)).1.timeOfLastMotionDetection = some u ∧ t ≤ u) ∧
    ((loopIter defaultConfig initialState (StepInput.sample 9 0 PublishOutcome.ok)).1.encoding = false →
      (loopIter defaultConfig initialState
        (StepInput.sample 9 0 PublishOutcome.ok)).1.startTimeOfLastRecording = none) :=
  C2_recording_invariant_amended defaultConfig _
    (Reachable.step initialState (StepInput.sample 9 0 PublishOutcome.ok) Reachable.init)

/-- C3: while Recording with the duration cap configured and reached, the
iteration performs the duration-cap stop for every score (in particular for
scores above the motion threshold, because line 136 also requires
`not self.__is_max_recording_length_exceeded()`) and for every silence state —
the `elif` at line 142 is evaluated before the silence check at line 147, so
the cap takes precedence.  With a successful publish the encoder output is
stopped, the segment is handed to the publisher, and the state is cleared. -/
theorem C3_duration_cap_precedence (cfg : Config) (s : DetectorState)
    (score now t0 : ℚ) (po : PublishOutcome)
    (henc : s.encoding = true) (hstart : s.startTimeOfLastRecording = some t0)
    (hmax : 0 < cfg.maxRecordingLengthSeconds)
    (hdur : (cfg.maxRecordingLengthSeconds : ℚ) ≤ now - t0) :
    loopIter cfg s (StepInput.sample score now po) = writeRecordingToFile cfg po s ∧
    loopIter cfg s (StepInput.sample score now PublishOutcome.ok) =
      ({ s with encoding := false, startTimeOfLastRecording := none },
       [LoopEvent.stop (recordingFilePath cfg t0), LoopEvent.publish (recordingFilePath cfg t0)]) := by
  have hcap := maxRecordingLengthExceeded_of cfg s now t0 hstart hmax hdur
  exact ⟨loopIterSample_cap_stop cfg s score now po henc hcap,
    (loopIterSample_cap_stop cfg s score now PublishOutcome.ok henc hcap).trans
      (writeRecordingToFile_ok cfg s t0 hstart)⟩

/-- Witness for C3: `maxRecordingDuration = 10`, `startedAt = 0`, score 9 above
the 7.2 threshold at `now = 10.5`. -/
theorem C3_duration_cap_precedence_witness :
    loopIter capConfig
        { encoding := true, startTimeOfLastRecording := some 0, timeOfLastMotionDetection := some 0 }
        (StepInput.sample 9 (21 / 2) PublishOutcome.ok) =
      writeRecordingToFile capConfig PublishOutcome.ok
        { encoding := true, startTimeOfLastRecording := some 0,
          timeOfLastMotionDetection := some 0 } ∧
    loopIter capConfig
        { encoding := true, startTimeOfLastRecording := some 0, timeOfLastMotionDetection := some 0 }
        (StepInput.sample 9 (21 / 2) PublishOutcome.ok) =
      ({ encoding := false, startTimeOfLastRecording := none, timeOfLastMotionDetection := some 0 },
       [LoopEvent.stop (recordingFilePath capConfig 0),
        LoopEvent.publish (recordingFilePath capConfig 0)]) :=
  C3_duration_cap_precedence capConfig
    { encoding := true, startTimeOfLastRecording := some 0, timeOfLastMotionDetection := some 0 }
    9 (21 / 2) 0 PublishOutcome.ok rfl rfl (by decide) (by norm_num [capConfig])

/-- C4: while Recording with `lastMotionAt = tm` and the duration cap not
triggered, a below-threshold score strictly more than 5.0 seconds after `tm`
stops the encoder output and hands the segment to the publisher exactly once,
and the state returns to Idle. -/
theorem C4_silence_timeout_stop (cfg : Config) (s : DetectorState)
    (score now t0 tm : ℚ)
    (henc : s.encoding = true)
    (hstart : s.startTimeOfLastRecording = some t0)
    (hlast : s.timeOfLastMotionDetection = some tm)
    (hcap : isMaxRecordingLengthExceeded cfg s now = false)
    (_hscore : score ≤ cfg.minPixelDiff)
    (hsil : maxTimeSinceLastMotionDetectionSeconds < now - tm) :
    loopIter cfg s (StepInput.sample score now PublishOutcome.ok) =
      ({ s with encoding := false, startTimeOfLastRecording := none },
       [LoopEvent.stop (recordingFilePath cfg t0), LoopEvent.publish (recordingFilePath cfg t0)]) ∧
    (loopIter cfg s (StepInput.sample score now PublishOutcome.ok)).2.countP isStopEvent = 1 ∧
    (loopIter cfg s (StepInput.sample score now PublishOutcome.ok)).2.countP isPublishEvent = 1 ∧
    (loopIter cfg s (StepInput.sample score now PublishOutcome.ok)).1.encoding = false := by
  have hsil' := maxTimeSinceLastMotionExceeded_of s now tm henc hlast hsil
  have heq : loopIter cfg s (StepInput.sample score now PublishOutcome.ok) =
      ({ s with encoding := false, startTimeOfLastRecording := none },
       [LoopEvent.stop (recordingFilePath cfg t0), LoopEvent.publish (recordingFilePath cfg t0)]) :=
    (loopIterSample_silence_stop cfg s score now PublishOutcome.ok henc hcap hsil').trans
      (writeRecordingToFile_ok cfg s t0 hstart)
  refine ⟨heq, ?_, ?_, ?_⟩ <;>
    simp [heq, List.countP_cons, isStopEvent, isPublishEvent]

/-- Witness for C4: Recording since `t = 0` with `lastMotionAt = 0`, default
configuration (no duration cap), score 0 at `now = 5.1`. -/
theorem C4_silence_timeout_stop_witness :
    loopIter defaultConfig
        { encoding := true, startTimeOfLastRecording := some 0, timeOfLastMotionDetection := some 0 }
        (StepInput.sample 0 (51 / 10) PublishOutcome.ok) =
      ({ encoding := false, startTimeOfLastRecording := none, timeOfLastMotionDetection := some 0 },
       [LoopEvent.stop (recordingFilePath defaultConfig 0),
        LoopEvent.publish (recordingFilePath defaultConfig 0)]) ∧
    (loopIter defaultConfig
        { encoding := true, startTimeOfLastRecording := some 0, timeOfLastMotionDetection := some 0 }
        (StepInput.sample 0 (51 / 10) PublishOutcome.ok)).2.countP isStopEvent = 1 ∧
    (loopIter defaultConfig
        { encoding := true, startTimeOfLastRecording := some 0, timeOfLastMotionDetection := some 0 }
        (StepInput.sample 0 (51 / 10) PublishOutcome.ok)).2.countP isPublishEvent = 1 ∧
    (loopIter defaultConfig
        { encoding := true, startTimeOfLastRecording := some 0, timeOfLastMotionDetection := some 0 }
        (StepInput.sample 0 (51 / 10) PublishOutcome.ok)).1.encoding = false :=
  C4_silence_timeout_stop defaultConfig
    { encoding := true, startTimeOfLastRecording := some 0, timeOfLastMotionDetection := some 0 }
    0 (51 / 10) 0 0 rfl rfl rfl
    (by simp [isMaxRecordingLengthExceeded, defaultConfig])
    (by norm_num [defaultConfig])
    (by norm_num [maxTimeSinceLastMotionDetectionSeconds])

/-- C6: in a reachable Idle state a below-threshold score leaves the state
unchanged and produces no encoder-output, publisher or log call; in particular
the two stop checks (duration cap and silence timeout) are no-ops when Idle,
because `__start_time_of_last_recording` is `None` and `__encoding` is
`False`. -/
theorem C6_idle_below_threshold_noop (cfg : Config) (s : DetectorState)
    (score now : ℚ) (po : PublishOutcome)
    (hreach : Reachable cfg s) (hidle : s.encoding = false)
    (hscore : score ≤ cfg.minPixelDiff) :
    loopIter cfg s (StepInput.sample score now po) = (s, []) := by
  have hstart : s.startTimeOfLastRecording = none := (reachable_stateInv cfg s hreach).2 hidle
  have hcap : isMaxRecordingLengthExceeded cfg s now = false := by
    simp [isMaxRecordingLengthExceeded, hstart]
  have hsil : isMaxTimeSinceLastMotionDetectionExceeded s now = false := by
    simp [isMaxTimeSinceLastMotionDetectionExceeded, hidle]
  have hd : decide (cfg.minPixelDiff < score) = false := by
    simp [not_lt.2 hscore]
  show loopIterSample cfg s score now po = (s, [])
  simp [loopIterSample, hd, hcap, hsil]

/-- Witness for C6 at the initial (Idle) state with score 0. -/
theorem C6_idle_below_threshold_noop_witness :
    loopIter defaultConfig initialState (StepInput.sample 0 0 PublishOutcome.ok) =
      (initialState, []) :=
  C6_idle_below_threshold_noop defaultConfig initialState 0 0 PublishOutcome.ok
    Reachable.init rfl (by norm_num [defaultConfig])

/-- C8: a `capture_buffer`/`reshape` exception is caught by the `except` at
line 151, logged at error level, and the loop moves on with its state intact.
Any number of consecutive acquisition failures, from any controller state,
leaves the state unchanged and produces exactly one error log per failure: the
loop processes the whole input list (it never terminates because of them) and
applies no backoff and no failure bound. -/
theorem C8_acquisition_errors_logged_loop_continues (cfg : Config)
    (s : DetectorState) (msgs : List String) :
    runLoop cfg s (msgs.map StepInput.acquisitionFailure) =
      (s, msgs.map LoopEvent.logError) := by
  induction msgs with
  | nil => rfl
  | cons m rest ih => simp [runLoop, loopIter, ih]

/-- C9, counterexample: a `__calculate_histogram_difference` exception is not
fatal.  The loop body's catch-all swallows it: the error is merely logged, and
the very next iteration proceeds normally — here it even starts a new
recording.  The claim that the program aborts when the scorer raises is false
on the code. -/
theorem C9_scoring_error_not_fatal :
    runLoop defaultConfig initialState
      [StepInput.scoringFailure "shape mismatch", StepInput.sample 9 1 PublishOutcome.ok] =
    ({ encoding := true, startTimeOfLastRecording := some 1, timeOfLastMotionDetection := some 1 },
     [LoopEvent.logError "shape mismatch",
      LoopEvent.start (recordingFilePath defaultConfig 1)]) := by
  norm_num [runLoop, loopIter, loopIterSample, startRecording, writeRecordingToFile,
    isMaxRecordingLengthExceeded, isMaxTimeSinceLastMotionDetectionExceeded,
    maxTimeSinceLastMotionDetectionSeconds, defaultConfig, initialState]

/-- C9, amended: a scoring-step exception (e.g. a frame-shape mismatch) is
caught by the iteration's catch-all handler at lines 151-153, logged at error
level, and the detection loop continues with the next frame exactly as it
would have without the failed iteration; the program does not abort. -/
theorem C9_scoring_error_swallowed (cfg : Config) (s : DetectorState) (m : String)
    (inps : List StepInput) :
    runLoop cfg s (StepInput.scoringFailure m :: inps) =
      ((runLoop cfg s inps).1, LoopEvent.logError m :: (runLoop cfg s inps).2) := by
  simp [runLoop, loopIter]

/-- C10: the stop sequence of `__write_recording_to_file` is not atomic.  If
`__upload_file` raises an exception that `__send_email` does not handle
(anything other than `smtplib.SMTPException` / `socket.timeout`) after
`self.__encoder.output.stop()` has run, the exception reaches the loop's
catch-all handler, which only logs it: lines 188-189 are skipped, so
`__encoding` is still `True` and `__start_time_of_last_recording` is still
set, and the controller state is exactly what it was before the iteration
although the encoder output for the segment was already finalized. -/
theorem C10_publish_failure_leaves_recording_state (cfg : Config)
    (s : DetectorState) (score now t0 tm : ℚ) (m : String)
    (henc : s.encoding = true)
    (hstart : s.startTimeOfLastRecording = some t0)
    (hlast : s.timeOfLastMotionDetection = some tm)
    (hcap : isMaxRecordingLengthExceeded cfg s now = false)
    (hsil : maxTimeSinceLastMotionDetectionSeconds < now - tm) :
    loopIter cfg s (StepInput.sample score now (PublishOutcome.unhandledFailure m)) =
      (s, [LoopEvent.stop (recordingFilePath cfg t0), LoopEvent.logError m]) ∧
    (loopIter cfg s
      (StepInput.sample score now (PublishOutcome.unhandledFailure m))).1.encoding = true ∧
    (loopIter cfg s
      (StepInput.sample score now
        (PublishOutcome.unhandledFailure m))).1.startTimeOfLastRecording = some t0 := by
  have hsil' := maxTimeSinceLastMotionExceeded_of s now tm henc hlast hsil
  have heq : loopIter cfg s (StepInput.sample score now (PublishOutcome.unhandledFailure m)) =
      (s, [LoopEvent.stop (recordingFilePath cfg t0), LoopEvent.logError m]) :=
    (loopIterSample_silence_stop cfg s score now (PublishOutcome.unhandledFailure m)
        henc hcap hsil').trans
      (writeRecordingToFile_unhandled cfg s t0 m hstart)
  exact ⟨heq, by rw [heq]; exact henc, by rw [heq]; exact hstart⟩

/-- Witness for C10: Recording since `t = 0`, silence timeout reached at
`now = 6`, publisher raises a connection error. -/
theorem C10_publish_failure_leaves_recording_state_witness :
    loopIter defaultConfig
        { encoding := true, startTimeOfLastRecording := some 0, timeOfLastMotionDetection := some 0 }
        (StepInput.sample 0 6 (PublishOutcome.unhandledFailure "connection refused")) =
      ({ encoding := true, startTimeOfLastRecording := some 0, timeOfLastMotionDetection := some 0 },
       [LoopEvent.stop (recordingFilePath defaultConfig 0),
        LoopEvent.logError "connection refused"]) ∧
    (loopIter defaultConfig
        { encoding := true, startTimeOfLastRecording := some 0, timeOfLastMotionDetection := some 0 }
        (StepInput.sample 0 6
          (PublishOutcome.unhandledFailure "connection refused"))).1.encoding = true ∧
    (loopIter defaultConfig
        { encoding := true, startTimeOfLastRecording := some 0, timeOfLastMotionDetection := some 0 }
        (StepInput.sample 0 6
          (PublishOutcome.unhandledFailure
            "connection refused"))).1.startTimeOfLastRecording = some 0 :=
  C10_publish_failure_leaves_recording_state defaultConfig
    { encoding := true, startTimeOfLastRecording := some 0, timeOfLastMotionDetection := some 0 }
    0 6 0 0 "connection refused" rfl rfl rfl
    (by simp [isMaxRecordingLengthExceeded, defaultConfig])
    (by norm_num [maxTimeSinceLastMotionDetectionSeconds])

theorem episode_step (cfg : Config) (t : ℚ) (s : DetectorState) (inp : StepInput)
    (hinv : EpisodeInv t s)
    (hnostart : ((loopIter cfg s inp).2.all fun e => !(isStartEvent e)) = true) :
    EpisodeInv t (loopIter cfg s inp).1 ∧
    ∀ q, LoopEvent.stop q ∈ (loopIter cfg s inp).2 → q = recordingFilePath cfg t := by
  cases inp with
  | acquisitionFailure m => exact ⟨hinv, fun q hq => by simp [loopIter] at hq⟩
  | scoringFailure m => exact ⟨hinv, fun q hq => by simp [loopIter] at hq⟩
  | sample histDiff now po =>
      rcases hinv with ⟨henc, hstart⟩ | ⟨henc, hstart⟩
      · -- Recording the segment started at t: the motion branch cannot fire
        -- (line 136 requires `not self.__encoding`), and every stop uses the
        -- path computed from the stored start time t.
        have hwrite : EpisodeInv t (writeRecordingToFile cfg po s).1 ∧
            ∀ q, LoopEvent.stop q ∈ (writeRecordingToFile cfg po s).2 →
              q = recordingFilePath cfg t := by
          cases po with
          | ok =>
              rw [writeRecordingToFile_ok cfg s t hstart]
              exact ⟨Or.inr ⟨rfl, rfl⟩, fun q hq => by simpa using hq⟩
          | handledFailure m =>
              have : writeRecordingToFile cfg (PublishOutcome.handledFailure m) s =
                  ({ s with encoding := false, startTimeOfLastRecording := none },
                   [LoopEvent.stop (recordingFilePath cfg t), LoopEvent.logError m,
                    LoopEvent.publish (recordingFilePath cfg t)]) := by
                simp [writeRecordingToFile, hstart]
              rw [this]
              exact ⟨Or.inr ⟨rfl, rfl⟩, fun q hq => by simpa using hq⟩
          | unhandledFailure m =>
              rw [writeRecordingToFile_unhandled cfg s t m hstart]
              exact ⟨Or.inl ⟨henc, hstart⟩, fun q hq => by simpa using hq⟩
        show EpisodeInv t (loopIterSample cfg s histDiff now po).1 ∧
          ∀ q, LoopEvent.stop q ∈ (loopIterSample cfg s histDiff now po).2 →
            q = recordingFilePath cfg t
        unfold loopIterSample
        split
        · next hcond =>
            rw [henc] at hcond
            simp at hcond
        · split
          · exact hwrite
          · split
            · exact hwrite
            · exact ⟨Or.inl ⟨henc, hstart⟩, by simp⟩
      · -- Idle with the start time cleared: the only branch that could fire is
        -- the motion branch, which would emit a start event, excluded here.
        have hns : ((loopIterSample cfg s histDiff now po).2.all
            fun e => !(isStartEvent e)) = true := hnostart
        have hcap : isMaxRecordingLengthExceeded cfg s now = false := by
          simp [isMaxRecordingLengthExceeded, hstart]
        have hsil : isMaxTimeSinceLastMotionDetectionExceeded s now = false := by
          simp [isMaxTimeSinceLastMotionDetectionExceeded, henc]
        show EpisodeInv t (loopIterSample cfg s histDiff now po).1 ∧
          ∀ q, LoopEvent.stop q ∈ (loopIterSample cfg s histDiff now po).2 →
            q = recordingFilePath cfg t
        cases hd : decide (cfg.minPixelDiff < histDiff) with
        | false =>
            have hnoop : loopIterSample cfg s histDiff now po = (s, []) := by
              simp [loopIterSample, hd, hcap, hsil]
            rw [hnoop]
            exact ⟨Or.inr ⟨henc, hstart⟩, by simp⟩
        | true =>
            exfalso
            have hev : (loopIterSample cfg s histDiff now po).2 =
                [LoopEvent.start (recordingFilePath cfg now)] := by
              simp [loopIterSample, hd, hcap, henc, startRecording]
            rw [hev] at hns
            simp [isStartEvent] at hns

theorem episode_run (cfg : Config) (t : ℚ) (inps : List StepInput) :
    ∀ s : DetectorState, EpisodeInv t s →
      ((runLoop cfg s inps).2.all fun e => !(isStartEvent e)) = true →
      EpisodeInv t (runLoop cfg s inps).1 ∧
      ∀ q, LoopEvent.stop q ∈ (runLoop cfg s inps).2 → q = recordingFilePath cfg t := by
  induction inps with
  | nil => exact fun s hinv _ => ⟨hinv, by simp [runLoop]⟩
  | cons inp rest ih =>
      intro s hinv h
      have hrun : runLoop cfg s (inp :: rest) =
          ((runLoop cfg (loopIter cfg s inp).1 rest).1,
           (loopIter cfg s inp).2 ++ (runLoop cfg (loopIter cfg s inp).1 rest).2) := rfl
      rw [hrun] at h ⊢
      rw [List.all_append, Bool.and_eq_true] at h
      have hstep := episode_step cfg t s inp hinv h.1
      have hrest := ih (loopIter cfg s inp).1 hstep.1 h.2
      refine ⟨hrest.1, fun q hq => ?_⟩
      rcases List.mem_append.mp hq with hq | hq
      · exact hstep.2 q hq
      · exact hrest.2 q hq

theorem loopIterSample_start_event (cfg : Config) (s : DetectorState)
    (histDiff now : ℚ) (po : PublishOutcome) (p : String)
    (henc : s.encoding = false)
    (hp : LoopEvent.start p ∈ (loopIterSample cfg s histDiff now po).2) :
    p = recordingFilePath cfg now ∧
    (loopIterSample cfg s histDiff now po).1 =
      { encoding := true, startTimeOfLastRecording := some now,
        timeOfLastMotionDetection := some now } := by
  cases hc : (decide (cfg.minPixelDiff < histDiff)
      && !(isMaxRecordingLengthExceeded cfg s now) && !s.encoding) with
  | true =>
      have hcond : loopIterSample cfg s histDiff now po =
          ({ encoding := true, startTimeOfLastRecording := some now,
             timeOfLastMotionDetection := some now },
           [LoopEvent.start (recordingFilePath cfg now)]) := by
        unfold loopIterSample
        rw [hc, henc]
        simp [startRecording, henc]
      rw [hcond] at hp
      exact ⟨by simpa using hp, by rw [hcond]⟩
  | false =>
      exfalso
      have hp' : LoopEvent.start p ∈
          (if isMaxRecordingLengthExceeded cfg s now = true then
            writeRecordingToFile cfg po s
          else if isMaxTimeSinceLastMotionDetectionExceeded s now = true then
            writeRecordingToFile cfg po s
          else (s, [])).2 := by
        have : loopIterSample cfg s histDiff now po =
            (if isMaxRecordingLengthExceeded cfg s now = true then
              writeRecordingToFile cfg po s
            else if isMaxTimeSinceLastMotionDetectionExceeded s now = true then
              writeRecordingToFile cfg po s
            else (s, [])) := by
          unfold loopIterSample
          rw [hc]
          simp
        rwa [this] at hp
      have hnostartwrite : ∀ r, LoopEvent.start p ∉ (writeRecordingToFile cfg r s).2 := by
        intro r
        rcases hs : s.startTimeOfLastRecording with - | t0 <;>
          cases r <;> simp [writeRecordingToFile, hs]
      split at hp'
      · exact hnostartwrite po hp'
      · split at hp'
        · exact hnostartwrite po hp'
        · simp at hp'

/-- C5: the path of one motion segment is fixed at recording start.  If a
start event with path `p` is emitted from an Idle state on the iteration with
time `now`, then `p` is the path computed from the recording directory and the
serialized timestamp of `startedAt = now`; and as long as no further start
event occurs (i.e. within the same segment), every encoder-output stop —
whatever its iteration's time — uses exactly that same path, because
`__write_recording_to_file` recomputes it from the unchanged
`__start_time_of_last_recording`, not from the stop timestamp. -/
theorem C5_stop_path_equals_start_path (cfg : Config) (s : DetectorState)
    (score now : ℚ) (po : PublishOutcome) (inps : List StepInput) (p q : String)
    (hidle : s.encoding = false)
    (hstart : LoopEvent.start p ∈ (loopIter cfg s (StepInput.sample score now po)).2)
    (hnostart : (((runLoop cfg (loopIter cfg s (StepInput.sample score now po)).1 inps).2).all
      fun e => !(isStartEvent e)) = true)
    (hstop : LoopEvent.stop q ∈
      (runLoop cfg (loopIter cfg s (StepInput.sample score now po)).1 inps).2) :
    p = recordingFilePath cfg now ∧ q = p := by
  have h1 := loopIterSample_start_event cfg s score now po p hidle hstart
  have h2 : (loopIter cfg s (StepInput.sample score now po)).1 =
      { encoding := true, startTimeOfLastRecording := some now,
        timeOfLastMotionDetection := some now } := h1.2
  rw [h2] at hnostart hstop
  have hrun := episode_run cfg now inps
    { encoding := true, startTimeOfLastRecording := some now,
      timeOfLastMotionDetection := some now } (Or.inl ⟨rfl, rfl⟩) hnostart
  exact ⟨h1.1, (hrun.2 q hstop).trans h1.1.symm⟩

/-- Witness for C5: a segment started at `t = 0` (score 9) and stopped by the
silence timeout at `t = 6`; both the start and the stop use
`./recordings/` ++ serialized 0 ++ `.h264`. -/
theorem C5_stop_path_equals_start_path_witness :
    recordingFilePath defaultConfig 0 = recordingFilePath defaultConfig 0 ∧
    recordingFilePath defaultConfig 0 = recordingFilePath defaultConfig 0 :=
  C5_stop_path_equals_start_path defaultConfig initialState 9 0 PublishOutcome.ok
    [StepInput.sample 0 6 PublishOutcome.ok]
    (recordingFilePath defaultConfig 0) (recordingFilePath defaultConfig 0) rfl
    (by norm_num [loopIter, loopIterSample, startRecording,
      isMaxRecordingLengthExceeded, isMaxTimeSinceLastMotionDetectionExceeded,
      maxTimeSinceLastMotionDetectionSeconds, defaultConfig, initialState])
    (by norm_num [runLoop, loopIter, loopIterSample, startRecording, writeRecordingToFile,
      isMaxRecordingLengthExceeded, isMaxTimeSinceLastMotionDetectionExceeded,
      maxTimeSinceLastMotionDetectionSeconds, defaultConfig, initialState, isStartEvent])
    (by norm_num [runLoop, loopIter, loopIterSample, startRecording, writeRecordingToFile,
      isMaxRecordingLengthExceeded, isMaxTimeSinceLastMotionDetectionExceeded,
      maxTimeSinceLastMotionDetectionSeconds, defaultConfig, initialState])

theorem list_range_map_sum (n : ℕ) (f : ℕ → ℤ) :
    ((List.range n).map f).sum = ∑ i in Finset.range n, f i := by
  induction n with
  | zero => simp
  | succ k ih =>
      rw [List.range_succ, List.map_append, List.sum_append, Finset.sum_range_succ, ih]
      simp

/-- C7: the computed difference score is exactly the mean absolute per-bin
difference of the two 256-bin intensity histograms, and the score of a frame
against itself is 0.  (The histogram of a frame is shape-independent, so the
flattened embedding covers all equal-shaped single-channel 8-bit frames.) -/
theorem C7_histogram_difference_spec :
    (∀ c p : List ℕ, calculateHistogramDifference c p = specHistogramScore c p) ∧
    (∀ a : List ℕ, calculateHistogramDifference a a = 0) := by
  have key : ∀ c p : List ℕ, calculateHistogramDifference c p = specHistogramScore c p := by
    intro c p
    unfold calculateHistogramDifference specHistogramScore imageHistogram histogramBin
    simp only [List.zip_map', List.map_map, list_range_map_sum, List.length_map,
      List.length_range, Function.comp]
    simp
  refine ⟨key, fun a => ?_⟩
  rw [key a a]
  unfold specHistogramScore
  simp

end MotionDetection
